import Mathlib

/-!
Shallow embedding of the giantswarm/certificates searcher:
`k8s.go` (label catalog, secret naming) and `pkg/certs/searcher.go`
(single-kind search over a watch event stream, payload validation,
bundle fan-out). Byte slices are modelled as lists of bytes (`List Nat`),
Go maps as association lists, Go `time.Duration` as `Int` nanoseconds,
and the watch's event channel as an explicit list of deliveries.
-/

namespace Certs

/-- Go `[]byte`. -/
abbrev Bytes := List Nat

/-- `Cert` is a certificate name (`type Cert string` in `k8s.go`). -/
abbrev Cert := String

/-- `certificateLabel` from `k8s.go`: current-scheme certificate label key. -/
def certificateLabel : String := "giantswarm.io/certificate"

/-- `clusterIDLabel` from `k8s.go`: current-scheme cluster-ID label key. -/
def clusterIDLabel : String := "giantswarm.io/cluster-id"

/-- `legacyCertificateLabel` from `k8s.go`. -/
def legacyCertificateLabel : String := "clusterComponent"

/-- `legacyClusterIDLabel` from `k8s.go`. -/
def legacyClusterIDLabel : String := "clusterID"

/-- `SecretNamespace` from `k8s.go`. -/
def SecretNamespace : String := "default"

/-- Modelled from the spec: `clusterLabel`, the constant `searcher.go` uses
for the current-scheme cluster-ID label key, is declared in a file of the
package that is not under `src/`; the spec says the Searcher filters on the
current-scheme cluster-ID label, whose value `k8s.go` fixes. -/
def clusterLabel : String := "giantswarm.io/cluster-id"

def APICert : Cert := "api"
def CalicoCert : Cert := "calico"
def CalicoEtcdClientCert : Cert := "calico-etcd-client"
def ClusterOperatorAPICert : Cert := "cluster-operator-api"
def EtcdCert : Cert := "etcd"
def FlanneldEtcdClientCert : Cert := "flanneld-etcd-client"
def NodeOperatorCert : Cert := "node-operator"
def PrometheusCert : Cert := "prometheus"
def ServiceAccountCert : Cert := "service-account"
def WorkerCert : Cert := "worker"

/-- Modelled from the spec: `AppOperatorAPICert`, the certificate kind used
by `SearchAppOperator` in `searcher.go`, is declared in a file not under
`src/`; per the catalog's naming convention its string value is the
kebab-case kind name. -/
def AppOperatorAPICert : Cert := "app-operator-api"

/-- `AllCerts` from `k8s.go`. -/
def AllCerts : List Cert :=
  [APICert, CalicoCert, CalicoEtcdClientCert, ClusterOperatorAPICert,
   EtcdCert, FlanneldEtcdClientCert, NodeOperatorCert, PrometheusCert,
   ServiceAccountCert, WorkerCert]

/-- `K8sSecretName` from `k8s.go`: `fmt.Sprintf("%s-%s", clusterID, certificate)`. -/
def K8sSecretName (clusterID : String) (certificate : Cert) : String :=
  clusterID ++ "-" ++ certificate

/-- `K8sSecretLabels` from `k8s.go`: the map literal binding both the current
and the legacy label scheme. Go maps are modelled as association lists with
distinct keys. -/
def K8sSecretLabels (clusterID : String) (certificate : Cert) :
    List (String × String) :=
  [(certificateLabel, certificate),
   (clusterIDLabel, clusterID),
   (legacyCertificateLabel, certificate),
   (legacyClusterIDLabel, clusterID)]

/-- Go map indexing `m[k]` on a `map[string]string`: yields the zero value
`""` when the key is absent. -/
def mapIndex (m : List (String × String)) (k : String) : String :=
  match m.lookup k with
  | some v => v
  | none => ""

/-- A Kubernetes secret as the searcher reads it: its labels
(`map[string]string`) and its data (`map[string][]byte`). -/
structure Secret where
  labels : List (String × String)
  data : List (String × Bytes)
deriving DecidableEq, Repr

/-- Modelled from the spec: the `TLS` struct (spec's TLSBundle
{CA, Certificate, PrivateKey}) is declared in a file not under `src/`;
its field names `CA`, `Crt`, `Key` are those `searcher.go` assigns. -/
structure TLS where
  CA : Bytes
  Crt : Bytes
  Key : Bytes
deriving DecidableEq, Repr

/-- The zero value of the Go `TLS` struct. -/
def TLS.zero : TLS := ⟨[], [], []⟩

/-- Modelled from the spec: the error variables of the package
(`invalidConfigError`, `executionFailedError`, `timeoutError`,
`wrongTypeError`, `invalidSecretError`) are declared in an `error.go` not
under `src/`; per the spec's error taxonomy they are pairwise distinct
error kinds, so they are modelled as distinct constructors. -/
inductive ErrKind where
  | invalidConfigError
  | executionFailedError
  | timeoutError
  | wrongTypeError
  | invalidSecretError
deriving DecidableEq, Repr

/-- A masked error as produced by `microerror.Maskf(kind, format, args...)`:
its kind and its formatted message. -/
structure SearchError where
  kind : ErrKind
  msg : String
deriving DecidableEq, Repr

/-- Go's `%q` verb on an ordinary string value. -/
def goQuote (s : String) : String := "\"" ++ s ++ "\""

/-- `watch.EventType` from `k8s.io/apimachinery/pkg/watch` (external
collaborator, spec section 6): the kinds of events an event stream yields. -/
inductive EventType where
  | Added
  | Modified
  | Deleted
  | Bookmark
  | Error
deriving DecidableEq, Repr

/-- The `runtime.Object` payload carried by a watch event: either a
`*corev1.Secret` pointer (possibly nil) or some other object, identified by
its dynamic type name. -/
inductive RuntimeObject where
  | secretObj (s : Option Secret)
  | otherObj (typeName : String)
deriving DecidableEq, Repr

/-- A `watch.Event`: its type and its object payload. -/
structure WatchEvent where
  etype : EventType
  object : RuntimeObject
deriving DecidableEq, Repr

/-- One firing of the `select` in `search`: either the result channel
delivered an event (`event`), or the result channel was found closed
(`closed`, the `!ok` branch), or the `time.After(s.watchTimeout)` timer of
that iteration fired first (`timerFired`). -/
inductive WatchDelivery where
  | event (e : WatchEvent)
  | closed
  | timerFired
deriving DecidableEq, Repr

/-- Rendering of `apierrors.FromObject(event.Object)` by the `%v` verb
(external library call; its exact text plays no role in any claim). -/
def apiErrorText : RuntimeObject → String
  | .secretObj _ => "Status"
  | .otherObj t => t

/-- The label selector `search` builds:
`fmt.Sprintf("%s=%s, %s=%s", certificateLabel, cert, clusterLabel, clusterID)`. -/
def searchSelector (clusterID : String) (cert : Cert) : String :=
  certificateLabel ++ "=" ++ cert ++ ", " ++ clusterLabel ++ "=" ++ clusterID

/-- The `for`/`select` loop of `search` over a finite trace of select
firings. `none` means the trace was exhausted with the loop still blocked
(no wakeup source fired). -/
def searchLoop (selector : String) : List WatchDelivery → Option (Except SearchError Secret)
  | [] => none
  | .closed :: _ =>
      some (.error ⟨.executionFailedError,
        "watching secrets, selector = " ++ goQuote selector ++ ": unexpected closed channel"⟩)
  | .timerFired :: _ =>
      some (.error ⟨.timeoutError, "waiting secrets, selector = " ++ goQuote selector⟩)
  | .event e :: rest =>
      match e.etype with
      | .Added =>
          match e.object with
          | .secretObj (some s) => some (.ok s)
          | .secretObj none =>
              some (.error ⟨.wrongTypeError, "expected '*v1.Secret', got '*v1.Secret'"⟩)
          | .otherObj t =>
              some (.error ⟨.wrongTypeError, "expected '*v1.Secret', got '" ++ t ++ "'"⟩)
      | .Deleted => searchLoop selector rest
      | .Error =>
          some (.error ⟨.executionFailedError,
            "watching secrets, selector = " ++ goQuote selector ++ ": " ++ apiErrorText e.object⟩)
      | .Modified => searchLoop selector rest
      | .Bookmark => searchLoop selector rest

/-- The `Searcher` struct; `K` and `L` stand for the store client and
logger interface types. -/
structure Searcher (K L : Type) where
  k8sClient : K
  logger : L
  watchTimeout : Int
deriving Repr

/-- `search` from `searcher.go`: builds the selector, opens the watch
(whose outcome — an open error, or the trace of select firings — is the
environment's input `watchResult`), and runs the loop. -/
def search {K L : Type} (_s : Searcher K L) (clusterID : String) (cert : Cert)
    (watchResult : Except SearchError (List WatchDelivery)) :
    Option (Except SearchError Secret) :=
  match watchResult with
  | .error e => some (.error e)
  | .ok stream => searchLoop (searchSelector clusterID cert) stream

/-- `fillTLSFromSecret` from `searcher.go`, functionally: the validated and
decoded `TLS` on success, the invalid-secret error of the first failing
check otherwise. Label indexing follows Go map semantics (absent key reads
as `""`); data keys are read with the comma-ok form. -/
def fillTLSFromSecret (secret : Secret) (cluster : String) (cert : Cert) :
    Except SearchError TLS :=
  if cluster ≠ mapIndex secret.labels clusterLabel then
    .error ⟨.invalidSecretError,
      "expected cluster = " ++ goQuote cluster ++ ", got " ++ goQuote (mapIndex secret.labels clusterLabel)⟩
  else if cert ≠ mapIndex secret.labels certificateLabel then
    .error ⟨.invalidSecretError,
      "expected certificate = " ++ goQuote cert ++ ", got " ++ goQuote (mapIndex secret.labels certificateLabel)⟩
  else
    match secret.data.lookup "ca" with
    | none => .error ⟨.invalidSecretError, goQuote "ca" ++ " key missing"⟩
    | some ca =>
      match secret.data.lookup "crt" with
      | none => .error ⟨.invalidSecretError, goQuote "crt" ++ " key missing"⟩
      | some crt =>
        match secret.data.lookup "key" with
        | none => .error ⟨.invalidSecretError, goQuote "key" ++ " key missing"⟩
        | some key => .ok ⟨ca, crt, key⟩

/-- The body of one search-and-decode task: `search` followed by
`fillTLSFromSecret`, the composition shared verbatim by `SearchTLS` and by
every bundle method's goroutine. -/
def searchAndFill {K L : Type} (s : Searcher K L)
    (watchResult : Except SearchError (List WatchDelivery))
    (clusterID : String) (cert : Cert) : Option (Except SearchError TLS) :=
  match search s clusterID cert watchResult with
  | none => none
  | some (.error e) => some (.error e)
  | some (.ok secret) =>
      match fillTLSFromSecret secret clusterID cert with
      | .error e => some (.error e)
      | .ok tls => some (.ok tls)

/-- `SearchTLS` from `searcher.go`: returns the Go pair
`(TLS, error)` — the zero `TLS` together with the error on failure, the
decoded `TLS` and no error on success. -/
def SearchTLS {K L : Type} (s : Searcher K L)
    (watchResult : Except SearchError (List WatchDelivery))
    (clusterID : String) (cert : Cert) : Option (TLS × Option SearchError) :=
  match searchAndFill s watchResult clusterID cert with
  | none => none
  | some (.error e) => some (TLS.zero, some e)
  | some (.ok tls) => some (tls, none)

/-- Modelled from the spec: the `AppOperator` bundle struct is declared in
a file not under `src/`; `searcher.go` populates its single `APIServer`
field. -/
structure AppOperator where
  APIServer : TLS
deriving DecidableEq, Repr

/-- The zero value of the Go `AppOperator` struct. -/
def AppOperator.zero : AppOperator := ⟨TLS.zero⟩

/-- Modelled from the spec: the `ClusterOperator` bundle struct is declared
in a file not under `src/`; `searcher.go` populates its single `APIServer`
field. -/
structure ClusterOperator where
  APIServer : TLS
deriving DecidableEq, Repr

/-- The zero value of the Go `ClusterOperator` struct. -/
def ClusterOperator.zero : ClusterOperator := ⟨TLS.zero⟩

/-- `SearchAppOperator` from `searcher.go`: one task per member certificate
kind (here the single kind `AppOperatorAPICert`), first task error aborts
the bundle and the zero struct is returned with it. -/
def SearchAppOperator {K L : Type} (s : Searcher K L)
    (watchResult : Except SearchError (List WatchDelivery))
    (clusterID : String) : Option (AppOperator × Option SearchError) :=
  match searchAndFill s watchResult clusterID AppOperatorAPICert with
  | none => none
  | some (.error e) => some (AppOperator.zero, some e)
  | some (.ok tls) => some (⟨tls⟩, none)

/-- `SearchClusterOperator` from `searcher.go`: one task per member
certificate kind (here the single kind `ClusterOperatorAPICert`), first
task error aborts the bundle and the zero struct is returned with it. -/
def SearchClusterOperator {K L : Type} (s : Searcher K L)
    (watchResult : Except SearchError (List WatchDelivery))
    (clusterID : String) : Option (ClusterOperator × Option SearchError) :=
  match searchAndFill s watchResult clusterID ClusterOperatorAPICert with
  | none => none
  | some (.error e) => some (ClusterOperator.zero, some e)
  | some (.ok tls) => some (⟨tls⟩, none)

/-- `DefaultWatchTimeout = 3 * time.Second`, in nanoseconds. -/
def DefaultWatchTimeout : Int := 3 * 1000000000

/-- The `Config` struct of `searcher.go`; the interface-typed dependencies
are modelled as `Option` (Go nil-ability), the `time.Duration` as `Int`
nanoseconds (zero value = unset). -/
structure Config (K L : Type) where
  K8sClient : Option K
  Logger : Option L
  WatchTimeout : Int
deriving Repr

/-- `NewSearcher` from `searcher.go`: fails with an invalid-config error on
a missing required dependency, defaults the watch timeout when it is zero. -/
def NewSearcher {K L : Type} (config : Config K L) :
    Except SearchError (Searcher K L) :=
  match config.K8sClient with
  | none => .error ⟨.invalidConfigError, "certs.Config.K8sClient must not be empty"⟩
  | some kc =>
    match config.Logger with
    | none => .error ⟨.invalidConfigError, "certs.Config.Logger must not be empty"⟩
    | some lg =>
      let wt := if config.WatchTimeout = 0 then DefaultWatchTimeout else config.WatchTimeout
      .ok ⟨kc, lg, wt⟩

/-- Whether a select firing is a delivered `Deleted` event (the kind the
loop explicitly ignores as handled by the certificate operator). -/
def isDeletedDelivery (d : WatchDelivery) : Bool :=
  match d with
  | .event e => decide (e.etype = EventType.Deleted)
  | _ => false

/-- A concrete searcher over trivial client and logger types, for
evaluating the model on concrete traces. -/
def unitSearcher : Searcher Unit Unit := ⟨(), (), DefaultWatchTimeout⟩

/-- A concrete well-formed secret for cluster `c-abc12` and kind
`cluster-operator-api`. -/
def sampleSecret : Secret :=
  ⟨[(clusterLabel, "c-abc12"), (certificateLabel, "cluster-operator-api")],
   [("ca", [67]), ("crt", [68]), ("key", [69])]⟩

/-- A concrete malformed secret: labels match cluster `c-abc12` and kind
`api`, but the `key` data entry is missing. -/
def badSecret : Secret :=
  ⟨[(clusterLabel, "c-abc12"), (certificateLabel, "api")],
   [("ca", [1]), ("crt", [2])]⟩

/-- A prefix of deliveries the loop ignores (`Deleted` events) does not
change the outcome of the loop on the remaining trace. -/
theorem searchLoop_skip (sel : String) (pre rest : List WatchDelivery)
    (h : ∀ d ∈ pre, isDeletedDelivery d = true) :
    searchLoop sel (pre ++ rest) = searchLoop sel rest := by
  induction pre with
  | nil => rfl
  | cons d tl ih =>
    have hd : isDeletedDelivery d = true := h d (List.mem_cons_self d tl)
    have htl : ∀ x ∈ tl, isDeletedDelivery x = true :=
      fun x hx => h x (List.mem_cons_of_mem d hx)
    cases d with
    | closed => simp [isDeletedDelivery] at hd
    | timerFired => simp [isDeletedDelivery] at hd
    | event e =>
      obtain ⟨t, o⟩ := e
      simp [isDeletedDelivery] at hd
      subst hd
      simpa [searchLoop] using ih htl

/-- When the watch resolves to a secret and validation rejects it, the
search operation surfaces the validation error together with the zero TLS
value. -/
theorem searchTLS_of_fillError {K L : Type} (s : Searcher K L)
    (watchResult : Except SearchError (List WatchDelivery))
    (clusterID : String) (cert : Cert) (secret : Secret) (e : SearchError)
    (hs : search s clusterID cert watchResult = some (.ok secret))
    (hf : fillTLSFromSecret secret clusterID cert = .error e) :
    SearchTLS s watchResult clusterID cert = some (TLS.zero, some e) := by
  simp [SearchTLS, searchAndFill, hs, hf]

/-- Claim C6: a `Deleted` event from the watch never by itself causes the
single-kind search to succeed or to fail — on receiving it the search
returns nothing, raises no error, and behaves exactly as it does on the
remaining event trace. -/
theorem deleted_event_is_noop {K L : Type} (s : Searcher K L)
    (clusterID : String) (cert : Cert) (o : RuntimeObject)
    (rest : List WatchDelivery) :
    search s clusterID cert
        (.ok (WatchDelivery.event ⟨EventType.Deleted, o⟩ :: rest))
      = search s clusterID cert (.ok rest) := rfl

/-- Claim C8: `K8sSecretName` and `K8sSecretLabels` are pure functions; the
secret name is exactly `clusterID ++ "-" ++ certificate`, and the label map
binds the certificate label of both the current and the legacy scheme to
the certificate kind value and the cluster-ID label of both schemes to the
cluster ID. -/
theorem catalog_name_and_labels (clusterID : String) (certificate : Cert) :
    K8sSecretName clusterID certificate = clusterID ++ "-" ++ certificate
    ∧ (K8sSecretLabels clusterID certificate).lookup certificateLabel = some certificate
    ∧ (K8sSecretLabels clusterID certificate).lookup legacyCertificateLabel = some certificate
    ∧ (K8sSecretLabels clusterID certificate).lookup clusterIDLabel = some clusterID
    ∧ (K8sSecretLabels clusterID certificate).lookup legacyClusterIDLabel = some clusterID := by
  refine ⟨rfl, ?_, ?_, ?_, ?_⟩ <;> rfl

/-- Claim C1: when the watch delivers no `Added` event before the timer
fires (any number of `Deleted` events may precede it), the single-kind
search fails with the timeout error kind. -/
theorem search_timeout_kind {K L : Type} (s : Searcher K L)
    (clusterID : String) (cert : Cert) (pre rest : List WatchDelivery)
    (hpre : ∀ d ∈ pre, isDeletedDelivery d = true) :
    ∃ m, search s clusterID cert
        (.ok (pre ++ WatchDelivery.timerFired :: rest))
      = some (.error ⟨ErrKind.timeoutError, m⟩) := by
  refine ⟨"waiting secrets, selector = " ++ goQuote (searchSelector clusterID cert), ?_⟩
  show searchLoop _ _ = _
  rw [searchLoop_skip _ pre _ hpre]
  rfl

/-- Concrete instance of claim C1: a trace of one `Deleted` event followed
by timer expiry times out with the timeout error kind. -/
theorem search_timeout_kind_witness :
    ∃ m, search unitSearcher "c-abc12" APICert
        (.ok ([WatchDelivery.event ⟨EventType.Deleted, RuntimeObject.secretObj none⟩]
              ++ WatchDelivery.timerFired :: []))
      = some (.error ⟨ErrKind.timeoutError, m⟩) :=
  search_timeout_kind unitSearcher "c-abc12" APICert
    [WatchDelivery.event ⟨EventType.Deleted, RuntimeObject.secretObj none⟩] []
    (by decide)

/-- Claim C7: the single-kind search opens its watch with a label selector
that is the comma-separated list of two `key=value` equality clauses, one
requiring exact match on the current-scheme certificate label with the
requested certificate kind as value, one requiring exact match on the
current-scheme cluster-ID label with the requested cluster ID as value. -/
theorem selector_comma_separated_clauses (clusterID : String) (cert : Cert) :
    searchSelector clusterID cert
        = String.intercalate ", "
            [certificateLabel ++ "=" ++ cert, clusterLabel ++ "=" ++ clusterID]
    ∧ clusterLabel = clusterIDLabel
    ∧ certificateLabel = "giantswarm.io/certificate" := by
  refine ⟨?_, rfl, rfl⟩
  show searchSelector clusterID cert
      = certificateLabel ++ "=" ++ cert ++ ", " ++ (clusterLabel ++ "=" ++ clusterID)
  simp [searchSelector, String.append_assoc]

/-- Claim C9: `NewSearcher` fails with the invalid-config error kind when
the store client or the logger is missing, and otherwise succeeds with the
watch timeout defaulted to 3 seconds when unset and taken from the config
when set. -/
theorem newSearcher_config (K L : Type) (config : Config K L) :
    (config.K8sClient = none ∨ config.Logger = none →
        ∃ m, NewSearcher config = .error ⟨ErrKind.invalidConfigError, m⟩)
    ∧ (∀ kc lg, config.K8sClient = some kc → config.Logger = some lg →
        ∃ s : Searcher K L, NewSearcher config = .ok s
          ∧ (config.WatchTimeout = 0 → s.watchTimeout = DefaultWatchTimeout)
          ∧ (config.WatchTimeout ≠ 0 → s.watchTimeout = config.WatchTimeout))
    ∧ DefaultWatchTimeout = 3 * 1000000000 := by
  obtain ⟨okc, olg, wt⟩ := config
  refine ⟨?_, ?_, rfl⟩
  · rintro (h | h)
    · subst h
      exact ⟨"certs.Config.K8sClient must not be empty", rfl⟩
    · subst h
      cases okc with
      | none => exact ⟨"certs.Config.K8sClient must not be empty", rfl⟩
      | some kc => exact ⟨"certs.Config.Logger must not be empty", rfl⟩
  · rintro kc lg rfl rfl
    refine ⟨⟨kc, lg, if wt = 0 then DefaultWatchTimeout else wt⟩, rfl, ?_, ?_⟩
    · intro h
      have hw : wt = 0 := h
      simp [hw]
    · intro h
      have hw : ¬wt = 0 := h
      simp [hw]

/-- Concrete instance of claim C9: construction with both dependencies
missing fails with the invalid-config error kind. -/
theorem newSearcher_config_witness :
    ∃ m, NewSearcher (⟨none, none, 0⟩ : Config Unit Unit)
      = .error ⟨ErrKind.invalidConfigError, m⟩ :=
  (newSearcher_config Unit Unit ⟨none, none, 0⟩).1 (Or.inl rfl)

/-- Counterexample to claim C2: on a concrete search, the
unexpected-closed-channel failure and the error-event failure carry the
same error kind (`executionFailedError`), so they are not distinct error
kinds. -/
theorem closed_and_error_share_kind :
    search unitSearcher "c-abc12" APICert (.ok [WatchDelivery.closed])
        = some (.error ⟨ErrKind.executionFailedError,
            "watching secrets, selector = "
              ++ goQuote (searchSelector "c-abc12" APICert)
              ++ ": unexpected closed channel"⟩)
    ∧ search unitSearcher "c-abc12" APICert
          (.ok [WatchDelivery.event ⟨EventType.Error, RuntimeObject.otherObj "Status"⟩])
        = some (.error ⟨ErrKind.executionFailedError,
            "watching secrets, selector = "
              ++ goQuote (searchSelector "c-abc12" APICert) ++ ": Status"⟩) :=
  ⟨rfl, rfl⟩

/-- Claim C2 as amended: timer expiry fails with the timeout error kind,
which is distinct from the `executionFailedError` kind; the
unexpected-closed-channel failure and the error-event failure both carry
that same `executionFailedError` kind and are distinguished only by their
messages. -/
theorem error_kinds_of_failure_causes {K L : Type} (s : Searcher K L)
    (clusterID : String) (cert : Cert) (o : RuntimeObject)
    (rest : List WatchDelivery) :
    (∃ m, search s clusterID cert (.ok (WatchDelivery.closed :: rest))
        = some (.error ⟨ErrKind.executionFailedError, m⟩))
    ∧ (∃ m, search s clusterID cert
          (.ok (WatchDelivery.event ⟨EventType.Error, o⟩ :: rest))
        = some (.error ⟨ErrKind.executionFailedError, m⟩))
    ∧ (∃ m, search s clusterID cert (.ok (WatchDelivery.timerFired :: rest))
        = some (.error ⟨ErrKind.timeoutError, m⟩))
    ∧ (ErrKind.timeoutError == ErrKind.executionFailedError) = false := by
  refine ⟨⟨_, rfl⟩, ⟨_, rfl⟩, ⟨_, rfl⟩, rfl⟩

/-- Claim C3: if the watch delivers an `Added` event (possibly after some
`Deleted` events) whose secret carries the matching cluster-ID and
certificate labels and all three data keys, then `SearchTLS` succeeds and
returns exactly the secret's `ca`, `crt` and `key` data values. -/
theorem added_matching_secret_returns_tls {K L : Type} (s : Searcher K L)
    (clusterID : String) (cert : Cert) (pre rest : List WatchDelivery)
    (secret : Secret) (ca crt key : Bytes)
    (hpre : ∀ d ∈ pre, isDeletedDelivery d = true)
    (hcl : secret.labels.lookup clusterLabel = some clusterID)
    (hce : secret.labels.lookup certificateLabel = some cert)
    (hca : secret.data.lookup "ca" = some ca)
    (hcrt : secret.data.lookup "crt" = some crt)
    (hkey : secret.data.lookup "key" = some key) :
    SearchTLS s
        (.ok (pre ++ WatchDelivery.event
                ⟨EventType.Added, RuntimeObject.secretObj (some secret)⟩ :: rest))
        clusterID cert
      = some (⟨ca, crt, key⟩, none) := by
  have hs : search s clusterID cert
      (.ok (pre ++ WatchDelivery.event
              ⟨EventType.Added, RuntimeObject.secretObj (some secret)⟩ :: rest))
      = some (.ok secret) := by
    show searchLoop _ _ = _
    rw [searchLoop_skip _ pre _ hpre]
    rfl
  have h1 : mapIndex secret.labels clusterLabel = clusterID := by
    simp [mapIndex, hcl]
  have h2 : mapIndex secret.labels certificateLabel = cert := by
    simp [mapIndex, hce]
  have hfill : fillTLSFromSecret secret clusterID cert = .ok ⟨ca, crt, key⟩ := by
    simp [fillTLSFromSecret, h1, h2, hca, hcrt, hkey]
  simp [SearchTLS, searchAndFill, hs, hfill]

/-- Concrete instance of claim C3: an `Added` event carrying a well-formed
matching secret yields its three data values. -/
theorem added_matching_secret_returns_tls_witness :
    SearchTLS unitSearcher
        (.ok [WatchDelivery.event
                ⟨EventType.Added, RuntimeObject.secretObj (some sampleSecret)⟩])
        "c-abc12" ClusterOperatorAPICert
      = some (⟨[67], [68], [69]⟩, none) :=
  added_matching_secret_returns_tls unitSearcher "c-abc12" ClusterOperatorAPICert
    [] [] sampleSecret [67] [68] [69] (by decide) rfl rfl rfl rfl rfl

/-- Claim C5: the bundle searches are all-or-nothing — when the single
member task succeeds its decoded TLS value populates the corresponding
field of the returned struct, and when it fails the zero struct is
returned together with that task's own error. -/
theorem bundle_all_or_nothing {K L : Type} (s : Searcher K L)
    (watchResult : Except SearchError (List WatchDelivery)) (clusterID : String) :
    (∀ tls : TLS,
        searchAndFill s watchResult clusterID ClusterOperatorAPICert = some (.ok tls) →
        SearchClusterOperator s watchResult clusterID = some (⟨tls⟩, none))
    ∧ (∀ e : SearchError,
        searchAndFill s watchResult clusterID ClusterOperatorAPICert = some (.error e) →
        SearchClusterOperator s watchResult clusterID = some (ClusterOperator.zero, some e))
    ∧ (∀ tls : TLS,
        searchAndFill s watchResult clusterID AppOperatorAPICert = some (.ok tls) →
        SearchAppOperator s watchResult clusterID = some (⟨tls⟩, none))
    ∧ (∀ e : SearchError,
        searchAndFill s watchResult clusterID AppOperatorAPICert = some (.error e) →
        SearchAppOperator s watchResult clusterID = some (AppOperator.zero, some e)) := by
  refine ⟨?_, ?_, ?_, ?_⟩ <;> intro x h <;>
    simp [SearchClusterOperator, SearchAppOperator, h]

/-- Concrete instance of claim C5: when the member search of
`SearchClusterOperator` times out, the zero struct is returned with that
task's timeout error. -/
theorem bundle_all_or_nothing_witness :
    SearchClusterOperator unitSearcher (.ok [WatchDelivery.timerFired]) "c-abc12"
      = some (ClusterOperator.zero,
          some ⟨ErrKind.timeoutError,
            "waiting secrets, selector = "
              ++ goQuote (searchSelector "c-abc12" ClusterOperatorAPICert)⟩) :=
  (bundle_all_or_nothing unitSearcher (.ok [WatchDelivery.timerFired]) "c-abc12").2.1
    ⟨ErrKind.timeoutError,
      "waiting secrets, selector = "
        ++ goQuote (searchSelector "c-abc12" ClusterOperatorAPICert)⟩ rfl

/-- Claim C4: a delivered secret whose cluster-ID or certificate label does
not match the request, or which misses one of the `ca`, `crt`, `key` data
entries, is rejected with the invalid-secret error kind — the error names a
missing key whenever both labels match — and the search returns the zero
TLS value with that error, never a partial success. -/
theorem invalid_secret_rejected (secret : Secret) (clusterID : String) (cert : Cert)
    (h : mapIndex secret.labels clusterLabel ≠ clusterID
       ∨ mapIndex secret.labels certificateLabel ≠ cert
       ∨ secret.data.lookup "ca" = none
       ∨ secret.data.lookup "crt" = none
       ∨ secret.data.lookup "key" = none) :
    ∃ m, fillTLSFromSecret secret clusterID cert
          = .error ⟨ErrKind.invalidSecretError, m⟩
      ∧ (mapIndex secret.labels clusterLabel = clusterID →
          mapIndex secret.labels certificateLabel = cert →
          ∃ k, k ∈ ["ca", "crt", "key"] ∧ secret.data.lookup k = none
             ∧ m = goQuote k ++ " key missing")
      ∧ ∀ {K L : Type} (s : Searcher K L)
          (watchResult : Except SearchError (List WatchDelivery)),
          search s clusterID cert watchResult = some (.ok secret) →
          SearchTLS s watchResult clusterID cert
            = some (TLS.zero, some ⟨ErrKind.invalidSecretError, m⟩) := by
  by_cases hc : mapIndex secret.labels clusterLabel = clusterID
  · by_cases hk : mapIndex secret.labels certificateLabel = cert
    · cases hca : secret.data.lookup "ca" with
      | none =>
        have hf : fillTLSFromSecret secret clusterID cert
            = .error ⟨ErrKind.invalidSecretError, goQuote "ca" ++ " key missing"⟩ := by
          simp [fillTLSFromSecret, hc, hk, hca]
        refine ⟨_, hf, ?_, ?_⟩
        · intro _ _
          exact ⟨"ca", by simp, hca, rfl⟩
        · intro K L s wr hs
          exact searchTLS_of_fillError s wr clusterID cert secret _ hs hf
      | some ca =>
        cases hcrt : secret.data.lookup "crt" with
        | none =>
          have hf : fillTLSFromSecret secret clusterID cert
              = .error ⟨ErrKind.invalidSecretError, goQuote "crt" ++ " key missing"⟩ := by
            simp [fillTLSFromSecret, hc, hk, hca, hcrt]
          refine ⟨_, hf, ?_, ?_⟩
          · intro _ _
            exact ⟨"crt", by simp, hcrt, rfl⟩
          · intro K L s wr hs
            exact searchTLS_of_fillError s wr clusterID cert secret _ hs hf
        | some crt =>
          cases hkey : secret.data.lookup "key" with
          | none =>
            have hf : fillTLSFromSecret secret clusterID cert
                = .error ⟨ErrKind.invalidSecretError, goQuote "key" ++ " key missing"⟩ := by
              simp [fillTLSFromSecret, hc, hk, hca, hcrt, hkey]
            refine ⟨_, hf, ?_, ?_⟩
            · intro _ _
              exact ⟨"key", by simp, hkey, rfl⟩
            · intro K L s wr hs
              exact searchTLS_of_fillError s wr clusterID cert secret _ hs hf
          | some key =>
            exfalso
            rcases h with h | h | h | h | h
            · exact h hc
            · exact h hk
            · rw [hca] at h
              exact Option.noConfusion h
            · rw [hcrt] at h
              exact Option.noConfusion h
            · rw [hkey] at h
              exact Option.noConfusion h
    · have hk' : cert ≠ mapIndex secret.labels certificateLabel := fun e => hk e.symm
      have hf : fillTLSFromSecret secret clusterID cert
          = .error ⟨ErrKind.invalidSecretError,
              "expected certificate = " ++ goQuote cert ++ ", got "
                ++ goQuote (mapIndex secret.labels certificateLabel)⟩ := by
        simp [fillTLSFromSecret, hc, hk']
      refine ⟨_, hf, ?_, ?_⟩
      · intro _ h2
        exact absurd h2 hk
      · intro K L s wr hs
        exact searchTLS_of_fillError s wr clusterID cert secret _ hs hf
  · have hc' : clusterID ≠ mapIndex secret.labels clusterLabel := fun e => hc e.symm
    have hf : fillTLSFromSecret secret clusterID cert
        = .error ⟨ErrKind.invalidSecretError,
            "expected cluster = " ++ goQuote clusterID ++ ", got "
              ++ goQuote (mapIndex secret.labels clusterLabel)⟩ := by
      simp [fillTLSFromSecret, hc']
    refine ⟨_, hf, ?_, ?_⟩
    · intro h1 _
      exact absurd h1 hc
    · intro K L s wr hs
      exact searchTLS_of_fillError s wr clusterID cert secret _ hs hf

/-- Concrete instance of claim C4: a matching-labeled secret missing its
`key` data entry is rejected with the invalid-secret error kind. -/
theorem invalid_secret_rejected_witness :
    ∃ m, fillTLSFromSecret badSecret "c-abc12" APICert
          = .error ⟨ErrKind.invalidSecretError, m⟩
      ∧ (mapIndex badSecret.labels clusterLabel = "c-abc12" →
          mapIndex badSecret.labels certificateLabel = APICert →
          ∃ k, k ∈ ["ca", "crt", "key"] ∧ badSecret.data.lookup k = none
             ∧ m = goQuote k ++ " key missing")
      ∧ ∀ {K L : Type} (s : Searcher K L)
          (watchResult : Except SearchError (List WatchDelivery)),
          search s "c-abc12" APICert watchResult = some (.ok badSecret) →
          SearchTLS s watchResult "c-abc12" APICert
            = some (TLS.zero, some ⟨ErrKind.invalidSecretError, m⟩) :=
  invalid_secret_rejected badSecret "c-abc12" APICert (by decide)

/-- Claim C10: validation inside `fillTLSFromSecret` runs in the fixed
order cluster-ID label, certificate label, `ca`, `crt`, `key`, and the
reported invalid-secret error is the one of the earliest failing check,
whatever the state of the later checks. -/
theorem validation_order (secret : Secret) (clusterID : String) (cert : Cert) :
    (mapIndex secret.labels clusterLabel ≠ clusterID →
        fillTLSFromSecret secret clusterID cert
          = .error ⟨ErrKind.invalidSecretError,
              "expected cluster = " ++ goQuote clusterID ++ ", got "
                ++ goQuote (mapIndex secret.labels clusterLabel)⟩)
    ∧ (mapIndex secret.labels clusterLabel = clusterID →
        mapIndex secret.labels certificateLabel ≠ cert →
        fillTLSFromSecret secret clusterID cert
          = .error ⟨ErrKind.invalidSecretError,
              "expected certificate = " ++ goQuote cert ++ ", got "
                ++ goQuote (mapIndex secret.labels certificateLabel)⟩)
    ∧ (mapIndex secret.labels clusterLabel = clusterID →
        mapIndex secret.labels certificateLabel = cert →
        secret.data.lookup "ca" = none →
        fillTLSFromSecret secret clusterID cert
          = .error ⟨ErrKind.invalidSecretError, goQuote "ca" ++ " key missing"⟩)
    ∧ (mapIndex secret.labels clusterLabel = clusterID →
        mapIndex secret.labels certificateLabel = cert →
        ∀ ca, secret.data.lookup "ca" = some ca →
        secret.data.lookup "crt" = none →
        fillTLSFromSecret secret clusterID cert
          = .error ⟨ErrKind.invalidSecretError, goQuote "crt" ++ " key missing"⟩)
    ∧ (mapIndex secret.labels clusterLabel = clusterID →
        mapIndex secret.labels certificateLabel = cert →
        ∀ ca crt, secret.data.lookup "ca" = some ca →
        secret.data.lookup "crt" = some crt →
        secret.data.lookup "key" = none →
        fillTLSFromSecret secret clusterID cert
          = .error ⟨ErrKind.invalidSecretError, goQuote "key" ++ " key missing"⟩) := by
  refine ⟨?_, ?_, ?_, ?_, ?_⟩
  · intro h
    have h' : clusterID ≠ mapIndex secret.labels clusterLabel := fun e => h e.symm
    simp [fillTLSFromSecret, h']
  · intro h1 h2
    have h2' : cert ≠ mapIndex secret.labels certificateLabel := fun e => h2 e.symm
    simp [fillTLSFromSecret, h1, h2']
  · intro h1 h2 hca
    simp [fillTLSFromSecret, h1, h2, hca]
  · intro h1 h2 ca hca hcrt
    simp [fillTLSFromSecret, h1, h2, hca, hcrt]
  · intro h1 h2 ca crt hca hcrt hkey
    simp [fillTLSFromSecret, h1, h2, hca, hcrt, hkey]

/-- Concrete instance of claim C10: a secret with no labels and no data has
every check failing, and the reported error is that of the earliest check,
the cluster-ID label. -/
theorem validation_order_witness :
    fillTLSFromSecret ⟨[], []⟩ "c-abc12" APICert
      = .error ⟨ErrKind.invalidSecretError,
          "expected cluster = " ++ goQuote "c-abc12" ++ ", got "
            ++ goQuote (mapIndex (Secret.mk [] []).labels clusterLabel)⟩ :=
  (validation_order ⟨[], []⟩ "c-abc12" APICert).1 (by decide)

end Certs
